import Mathlib

/-!
A shallow embedding of the react-redux binding layer: the `useSelector`
hook (render phase, commit phase, `checkForUpdates`), the pure
final-props selector pipeline, and the `Connect` class's subscription
lifecycle (`trySubscribe`, `tryUnsubscribe`, `handleChange`), together
with proofs of the behavioural properties stated in the specification.
-/

namespace ReactRedux

/-! ## JavaScript value model

JS values are modelled with explicit reference identity for objects:
`obj ref fields` carries a heap reference tag `ref` (JS `===` on objects
compares references) and one level of primitive-valued fields (shallow
equality never recurses deeper). Primitives are modelled by `Int`, and
`undef` stands for `undefined`. -/

inductive JsVal where
  | undef
  | prim (n : Int)
  | obj (ref : Nat) (fields : List (String × Int))
deriving DecidableEq, Repr

/-- JS strict equality `===`: value equality on primitives and
`undefined`, reference equality on objects. -/
def strictEq : JsVal → JsVal → Bool
  | .undef, .undef => true
  | .prim m, .prim n => m == n
  | .obj r _, .obj s _ => r == s
  | _, _ => false

/-- JS truthiness: `undefined` and `0` are falsy, objects are truthy. -/
def truthy : JsVal → Bool
  | .undef => false
  | .prim n => n != 0
  | .obj _ _ => true

/-- Key-by-key comparison of two field lists: same key set and equal
value at every key. -/
def fieldsEqual (fa fb : List (String × Int)) : Bool :=
  fa.all (fun kv => fb.lookup kv.1 == some kv.2) &&
  fb.all (fun kv => fa.lookup kv.1 == some kv.2)

/-- Modelled from the spec: `shallowEqual` (src/utils/shallowEqual, not
present under src/). Per the spec it returns true if the two values are
reference-identical, or if both are non-null key-value mappings with the
same set of keys and identity-equal value at every key, with no
recursion into nested structures. -/
def shallowEqual (a b : JsVal) : Bool :=
  if strictEq a b then true
  else
    match a, b with
    | .obj _ fa, .obj _ fb => fieldsEqual fa fb
    | _, _ => false

/-- Modelled from the spec: `isPlainObject` (src/utils/isPlainObject,
not present under src/). Per the spec, a result is acceptable to the
derivation/merge stages exactly when it is a plain key-value mapping. -/
def isPlainObject : JsVal → Bool
  | .obj _ _ => true
  | _ => false

/-- Rendering of a value into an error message, standing for the `%s`
interpolation done by `invariant`. -/
def displayVal : JsVal → String
  | .undef => "undefined"
  | .prim n => toString n
  | .obj _ _ => "[object Object]"

/-- `hasSubstr s t` holds when `t` occurs contiguously inside `s`. -/
def hasSubstr (s t : String) : Prop :=
  ∃ l r, s.data = l ++ t.data ++ r

/-- A thrown JS error: its `message` and its `stack`. -/
structure JsErr where
  message : String
  stack : String
deriving DecidableEq, Repr

/-! ## The `useSelector` hook (src/unnamed/part_000)

The hook's mutable refs that survive across renders. The selector
itself is threaded as an explicit function argument (the
`latestSelector` ref is written together with `latestSelectedState` in
the first commit effect, so the commit-phase functions below always
receive the selector of the latest render). A selector is a fallible
function from store state to a selected value. -/

structure HookRefs where
  latestSelectedState : JsVal
  latestSubscriptionCallbackError : Option JsErr
deriving DecidableEq, Repr

/-- The base message built when the render-phase selector throws
(part_000 lines 60-62). -/
def selectErrorMsg (err : JsErr) : String :=
  "An error occured while selecting the store state: " ++ err.message ++ "."

/-- The augmented message built when a background failure is pending
(part_000 lines 64-68): the base message followed by the correlation
text and the stack of the recorded background error. -/
def correlatedErrorMsg (err prev : JsErr) : String :=
  selectErrorMsg err ++
    "\nThe error may be correlated with this previous error:\n" ++
    prev.stack ++ "\n\nOriginal stack trace:"

/-- The render-phase read (part_000 lines 55-71): run the selector on
the current store state; on a throw, build the error message, appending
the correlation text and the stack of any pending background failure
recorded in `latestSubscriptionCallbackError`. -/
def renderSelectedState (selector : JsVal → Except JsErr JsVal)
    (latestSubscriptionCallbackError : Option JsErr) (storeState : JsVal) :
    Except String JsVal :=
  match selector storeState with
  | .ok v => .ok v
  | .error err =>
    match latestSubscriptionCallbackError with
    | some prev => .error (correlatedErrorMsg err prev)
    | none => .error (selectErrorMsg err)

/-- The first commit effect (part_000 lines 75-79), run after every
successful render pass: store the just-rendered selected state and
clear the error-correlation slot. (It also stores the latest selector,
which here is threaded explicitly.) -/
def commitSyncEffect (selectedState : JsVal) (refs : HookRefs) : HookRefs :=
  { refs with latestSelectedState := selectedState,
              latestSubscriptionCallbackError := none }

/-- `checkForUpdates` (part_000 lines 82-100): re-run the latest
selector on the current store state; if the result is shallow-equal to
the last rendered result, do nothing; otherwise record it and force a
render. A throw is swallowed into the error-correlation slot and a
render is forced. Returns the updated refs and whether a render was
forced. -/
def checkForUpdates (latestSelector : JsVal → Except JsErr JsVal)
    (storeState : JsVal) (refs : HookRefs) : HookRefs × Bool :=
  match latestSelector storeState with
  | .ok newSelectedState =>
    if shallowEqual newSelectedState refs.latestSelectedState then
      (refs, false)
    else
      ({ refs with latestSelectedState := newSelectedState }, true)
  | .error err =>
    ({ refs with latestSubscriptionCallbackError := some err }, true)

/-- The second commit effect (part_000 lines 81-108): after installing
`checkForUpdates` as the subscription's `onStateChange` and subscribing,
it immediately runs `checkForUpdates` against the store state current at
commit time, closing the window between the render-phase read and the
completion of the subscription. -/
def commitPhase (selector : JsVal → Except JsErr JsVal)
    (selectedState : JsVal) (refs : HookRefs) (commitStoreState : JsVal) :
    HookRefs × Bool :=
  checkForUpdates selector commitStoreState (commitSyncEffect selectedState refs)

/-! ## Final-props selector pipeline (src/unnamed/part_002)

`createPureFinalPropsSelector` closes over five mutable slots; they are
modelled as an explicit state record threaded through each invocation.
The four stage functions receive `(state, props, dispatch)` as in the
source. -/

structure SelectorFactoryOptions where
  getState : JsVal → JsVal → JsVal → JsVal
  getDispatch : JsVal → JsVal → JsVal → JsVal
  getOwnProps : JsVal → JsVal → JsVal → JsVal
  mergeProps : JsVal → JsVal → JsVal → JsVal

structure PureSelState where
  lastOwn : JsVal
  lastState : JsVal
  lastDispatch : JsVal
  lastMerged : JsVal
  lastResult : JsVal
deriving DecidableEq, Repr

/-- The five closure slots of `createPureFinalPropsSelector` start out
`undefined` (part_002 lines 14-18). -/
def initialPureSelState : PureSelState :=
  ⟨.undef, .undef, .undef, .undef, .undef⟩

/-- One invocation of `pureSelector` (part_002 lines 19-35). Returns the
externally returned value, the updated closure state, and whether
`mergeProps` was invoked on this call. -/
def pureSelector (g : SelectorFactoryOptions) (σ : PureSelState)
    (state props dispatch : JsVal) : JsVal × PureSelState × Bool :=
  let nextOwn := g.getOwnProps state props dispatch
  let nextState := g.getState state props dispatch
  let nextDispatch := g.getDispatch state props dispatch
  if !strictEq σ.lastOwn nextOwn || !strictEq σ.lastState nextState
      || !strictEq σ.lastDispatch nextDispatch then
    let nextMerged := g.mergeProps nextState nextDispatch nextOwn
    let newResult :=
      if !truthy σ.lastMerged || !shallowEqual σ.lastMerged nextMerged then
        nextMerged
      else σ.lastResult
    (newResult,
      { lastOwn := nextOwn, lastState := nextState,
        lastDispatch := nextDispatch, lastMerged := nextMerged,
        lastResult := newResult }, true)
  else
    (σ.lastResult,
      { σ with lastOwn := nextOwn, lastState := nextState,
               lastDispatch := nextDispatch }, false)

/-! ## The `Connect` class (src/src/components/createConnect.js)

The store is modelled by its state together with the listener registry
produced by its `subscribe` contract: listeners are identified by the id
handed out at registration, and `subscribe` returns an unsubscribe
handle that removes exactly that id. -/

structure Store (S : Type) where
  state : S
  listeners : List Nat
  nextId : Nat
deriving DecidableEq, Repr

/-- `shouldSubscribe = Boolean(mapStateToProps)` (createConnect.js line
28). -/
def shouldSubscribe {α : Type} (mapStateToProps : Option α) : Bool :=
  mapStateToProps.isSome

/-- The per-instance mutable fields of `Connect` that the subscription
lifecycle touches: the unsubscribe handle (the registered listener's id
when subscribed) and `this.state.storeState`. The constructor (lines
111-127) leaves `this.unsubscribe` undefined and sets
`this.state = { storeState: null }`. -/
structure ConnectInst (S : Type) where
  unsubscribe : Option Nat
  storeState : Option S
deriving DecidableEq, Repr

def initialConnectInst (S : Type) : ConnectInst S := ⟨none, none⟩

namespace Connect

/-- `isSubscribed` (lines 161-163): whether the unsubscribe handle is a
function. -/
def isSubscribed {S : Type} (inst : ConnectInst S) : Bool :=
  inst.unsubscribe.isSome

/-- `handleChange` (lines 187-195): return immediately when the
unsubscribe handle is cleared; otherwise read the store state and
schedule an update via `setState`. The returned flag records whether the
state was read and an update scheduled. -/
def handleChange {S : Type} (inst : ConnectInst S) (st : Store S) :
    ConnectInst S × Bool :=
  match inst.unsubscribe with
  | none => (inst, false)
  | some _ => ({ inst with storeState := some st.state }, true)

/-- `trySubscribe` (lines 165-170): when `shouldSubscribe` holds and no
unsubscribe handle is present, register a listener with the store, keep
the handle, and run `handleChange` once. -/
def trySubscribe {S : Type} (should : Bool) (inst : ConnectInst S)
    (st : Store S) : ConnectInst S × Store S :=
  if should && inst.unsubscribe.isNone then
    let id := st.nextId
    let st' : Store S :=
      { st with listeners := st.listeners ++ [id], nextId := id + 1 }
    let inst' : ConnectInst S := { inst with unsubscribe := some id }
    ((handleChange inst' st').1, st')
  else (inst, st)

/-- `tryUnsubscribe` (lines 172-177): when subscribed, invoke the stored
unsubscribe handle (removing the listener from the store) and clear it.
-/
def tryUnsubscribe {S : Type} (inst : ConnectInst S) (st : Store S) :
    ConnectInst S × Store S :=
  match inst.unsubscribe with
  | some id =>
    ({ inst with unsubscribe := none },
      { st with listeners := st.listeners.filter (fun l => l != id) })
  | none => (inst, st)

/-- `componentDidMount` (lines 179-181). -/
def componentDidMount {S : Type} (should : Bool) (inst : ConnectInst S)
    (st : Store S) : ConnectInst S × Store S :=
  trySubscribe should inst st

/-- `componentWillUnmount` (lines 183-185). -/
def componentWillUnmount {S : Type} (inst : ConnectInst S) (st : Store S) :
    ConnectInst S × Store S :=
  tryUnsubscribe inst st

end Connect

/-! ### Derivation and merge stages (createConnect.js lines 41-77)

A JS function called with fewer arguments than it declares receives
`undefined` for the missing ones, so the one-argument call forms of the
source are modelled by passing `undef`. A failed `invariant` throws; it
is modelled by `Except.error` carrying the formatted message. -/

/-- The message `invariant` formats when a stage returns a non-mapping
value: it names the stage and interpolates the offending value for `%s`.
-/
def invariantObjectMsg (stage : String) (v : JsVal) : String :=
  "`" ++ stage ++ "` must return an object. Instead received " ++
    displayVal v ++ "."

/-- `computeStateProps` (lines 41-53). -/
def computeStateProps {S : Type}
    (finalMapStateToProps : S → JsVal → JsVal)
    (shouldUpdateStateProps : Bool) (store : Store S) (props : JsVal) :
    Except String JsVal :=
  let state := store.state
  let stateProps :=
    if shouldUpdateStateProps then finalMapStateToProps state props
    else finalMapStateToProps state .undef
  if isPlainObject stateProps then .ok stateProps
  else .error (invariantObjectMsg "mapStateToProps" stateProps)

/-- `computeDispatchProps` (lines 55-67); `dispatch` is the store's
dispatch function, opaque here, passed through as a value. -/
def computeDispatchProps (finalMapDispatchToProps : JsVal → JsVal → JsVal)
    (shouldUpdateDispatchProps : Bool) (dispatch : JsVal) (props : JsVal) :
    Except String JsVal :=
  let dispatchProps :=
    if shouldUpdateDispatchProps then finalMapDispatchToProps dispatch props
    else finalMapDispatchToProps dispatch .undef
  if isPlainObject dispatchProps then .ok dispatchProps
  else .error (invariantObjectMsg "mapDispatchToProps" dispatchProps)

/-- `computeNextState` (lines 69-77): the merge stage. -/
def computeNextState (finalMergeProps : JsVal → JsVal → JsVal → JsVal)
    (stateProps dispatchProps parentProps : JsVal) : Except String JsVal :=
  let mergedProps := finalMergeProps stateProps dispatchProps parentProps
  if isPlainObject mergedProps then .ok mergedProps
  else .error (invariantObjectMsg "mergeProps" mergedProps)

/-! ## Subscription notification tree

Modelled from the spec: the `Subscription` node class
(src/utils/Subscription, not present under src/). Per the spec, a
node's upstream listener first runs the node's own notify callback and
then invokes every registered child listener in insertion order, each
child being another subscription node that recurses. A node is
identified here by the id of its own notify callback, and a tree of
nodes is a node id together with its ordered forest of children. -/

mutual

inductive STree where
  | node (id : Nat) (children : Forest)

inductive Forest where
  | nil
  | cons (t : STree) (rest : Forest)

end

mutual

/-- The order in which notify callbacks run when a store change reaches
the root of the tree: the node's own callback first, then each child
subtree in insertion order. -/
def notifyOrder : STree → List Nat
  | .node i cs => i :: notifyForest cs

/-- Notification order across a forest of sibling subtrees, in insertion
order. -/
def notifyForest : Forest → List Nat
  | .nil => []
  | .cons t rest => notifyOrder t ++ notifyForest rest

end

mutual

/-- All (strict ancestor id, descendant id) pairs of a tree: the root
paired with every node of every child subtree, plus the pairs inside
each child subtree. -/
def ancPairs : STree → List (Nat × Nat)
  | .node i cs => (notifyForest cs).map (fun d => (i, d)) ++ ancPairsForest cs

/-- Ancestor-descendant pairs across a forest. -/
def ancPairsForest : Forest → List (Nat × Nat)
  | .nil => []
  | .cons t rest => ancPairs t ++ ancPairsForest rest

end

mutual

/-- In a tree's notification order, every strict ancestor occurs before
its descendant. -/
theorem ancBeforeDescTree : ∀ (t : STree) (a d : Nat), (a, d) ∈ ancPairs t →
    ∃ l m r, notifyOrder t = l ++ a :: (m ++ d :: r)
  | .node i cs, a, d, h => by
    simp only [ancPairs, List.mem_append, List.mem_map] at h
    cases h with
    | inl h =>
      obtain ⟨d', hd', heq⟩ := h
      obtain ⟨ha, hd⟩ := Prod.mk.injEq .. ▸ heq
      subst ha; subst hd
      obtain ⟨s, u, hsplit⟩ := List.append_of_mem hd'
      exact ⟨[], s, u, by simp [notifyOrder, hsplit]⟩
    | inr h =>
      obtain ⟨l, m, r, hsplit⟩ := ancBeforeDescForest cs a d h
      exact ⟨i :: l, m, r, by simp [notifyOrder, hsplit]⟩

/-- Same property across a forest of sibling subtrees. -/
theorem ancBeforeDescForest : ∀ (f : Forest) (a d : Nat),
    (a, d) ∈ ancPairsForest f →
    ∃ l m r, notifyForest f = l ++ a :: (m ++ d :: r)
  | .nil, a, d, h => by simp [ancPairsForest] at h
  | .cons t rest, a, d, h => by
    simp only [ancPairsForest, List.mem_append] at h
    cases h with
    | inl h =>
      obtain ⟨l, m, r, hsplit⟩ := ancBeforeDescTree t a d h
      exact ⟨l, m, r ++ notifyForest rest, by simp [notifyForest, hsplit]⟩
    | inr h =>
      obtain ⟨l, m, r, hsplit⟩ := ancBeforeDescForest rest a d h
      exact ⟨notifyOrder t ++ l, m, r, by simp [notifyForest, hsplit]⟩

end

/-! ## Helper lemmas -/

theorem hasSubstr_correlated (err prev : JsErr) :
    hasSubstr (correlatedErrorMsg err prev) "The error may be correlated" ∧
    hasSubstr (correlatedErrorMsg err prev) prev.stack := by
  constructor
  · refine ⟨(selectErrorMsg err).data ++ "\n".data,
      (" with this previous error:\n" ++ prev.stack ++
        "\n\nOriginal stack trace:").data, ?_⟩
    have h : ("\nThe error may be correlated with this previous error:\n" :
        String) =
        "\n" ++ "The error may be correlated" ++ " with this previous error:\n" := by
      decide
    simp [correlatedErrorMsg, h, String.data_append, List.append_assoc]
  · refine ⟨(selectErrorMsg err ++
      "\nThe error may be correlated with this previous error:\n").data,
      "\n\nOriginal stack trace:".data, ?_⟩
    simp [correlatedErrorMsg, String.data_append, List.append_assoc]

theorem hasSubstr_invariantObjectMsg (stage : String) (v : JsVal) :
    hasSubstr (invariantObjectMsg stage v) stage ∧
    hasSubstr (invariantObjectMsg stage v) (displayVal v) := by
  constructor
  · exact ⟨"`".data,
      ("` must return an object. Instead received " ++ displayVal v ++ ".").data,
      by simp [invariantObjectMsg, String.data_append, List.append_assoc]⟩
  · exact ⟨("`" ++ stage ++ "` must return an object. Instead received ").data,
      ".".data,
      by simp [invariantObjectMsg, String.data_append, List.append_assoc]⟩

theorem strictEq_eq_of_not_truthy {a b : JsVal} (ha : truthy a = false)
    (h : strictEq a b = true) : a = b := by
  cases a <;> cases b <;> simp_all [truthy, strictEq]

theorem shallowEqual_eq_of_not_truthy {a b : JsVal} (ha : truthy a = false)
    (h : shallowEqual a b = true) : a = b := by
  cases a with
  | undef => cases b <;> simp_all [shallowEqual, strictEq]
  | prim n => cases b <;> simp_all [shallowEqual, strictEq]
  | obj r f => simp [truthy] at ha

/-- The invariant relating the `lastMerged` and `lastResult` slots of
the pure selector: whenever `lastMerged` is falsy (so `!lastMerged`
bypasses the shallow-equality gate), `lastResult` coincides with it. -/
def pureSelInv (σ : PureSelState) : Prop :=
  truthy σ.lastMerged = false → σ.lastResult = σ.lastMerged

theorem initial_pureSelInv : pureSelInv initialPureSelState := by
  intro _; rfl

theorem truthy_eq_of_shallowEqual {a b : JsVal}
    (h : shallowEqual a b = true) : truthy a = truthy b := by
  cases a <;> cases b <;> simp_all [shallowEqual, strictEq, truthy]

theorem pureSelector_preserves_inv (g : SelectorFactoryOptions)
    (σ : PureSelState) (s p d : JsVal) (h : pureSelInv σ) :
    pureSelInv (pureSelector g σ s p d).2.1 := by
  unfold pureSelector pureSelInv
  by_cases hc : (!strictEq σ.lastOwn (g.getOwnProps s p d)
      || !strictEq σ.lastState (g.getState s p d)
      || !strictEq σ.lastDispatch (g.getDispatch s p d)) = true
  · simp only [hc, if_true]
    by_cases hg : (!truthy σ.lastMerged
        || !shallowEqual σ.lastMerged
            (g.mergeProps (g.getState s p d) (g.getDispatch s p d)
              (g.getOwnProps s p d))) = true
    · simp [hg]
    · intro hm
      exfalso
      simp only [Bool.or_eq_true, Bool.not_eq_true', not_or,
        Bool.not_eq_false] at hg
      have := truthy_eq_of_shallowEqual hg.2
      rw [hg.1, hm] at this
      exact Bool.true_eq_false.mp this
  · simp only [hc, if_false]
    exact h

/-! ## Claim theorems -/

/-- A selector returning the store state itself, for concrete checks. -/
def idSelector : JsVal → Except JsErr JsVal := fun s => .ok s

/-- A selector that always throws, for concrete checks. -/
def throwingSelector : JsVal → Except JsErr JsVal :=
  fun _ => .error ⟨"boom", "origstack"⟩

/-- C1: a store change landing between the render-phase read and the
completion of the commit-phase subscription is never lost. The commit
phase re-reads the state, re-runs the latest selector and compares via
shallow equality: a render is forced exactly when the freshly selected
value differs, in which case the recorded latest selected state is the
fresh value; when the values are shallow-equal the retained value is the
rendered one (no observable change to apply). -/
theorem useSelector_no_missed_update (selector : JsVal → Except JsErr JsVal)
    (s0 s1 v0 v1 : JsVal) (refs : HookRefs)
    (h0 : selector s0 = .ok v0) (h1 : selector s1 = .ok v1) :
    (commitPhase selector v0 refs s1).2 = !shallowEqual v1 v0 ∧
    (shallowEqual v1 v0 = false →
      (commitPhase selector v0 refs s1).1.latestSelectedState = v1) ∧
    (shallowEqual v1 v0 = true →
      (commitPhase selector v0 refs s1).1.latestSelectedState = v0) ∧
    (commitPhase selector v0 refs s1).1.latestSubscriptionCallbackError
      = none := by
  unfold commitPhase checkForUpdates commitSyncEffect
  rw [h1]
  by_cases h : shallowEqual v1 v0 = true
  · simp [h]
  · have h' : shallowEqual v1 v0 = false := by simpa using h
    simp [h']

/-- Witness for C1 at a concrete change: the store moves from state `0`
to state `1` between render and commit, the identity selector's fresh
result differs, and the commit-phase re-check forces a render and
records the fresh value. -/
theorem useSelector_no_missed_update_witness :
    idSelector (.prim 0) = .ok (.prim 0) ∧
    idSelector (.prim 1) = .ok (.prim 1) ∧
    ((commitPhase idSelector (.prim 0) ⟨.prim 5, some ⟨"bg", "bgstack"⟩⟩
        (.prim 1)).2 = !shallowEqual (.prim 1) (.prim 0) ∧
      (shallowEqual (.prim 1) (.prim 0) = false →
        (commitPhase idSelector (.prim 0) ⟨.prim 5, some ⟨"bg", "bgstack"⟩⟩
          (.prim 1)).1.latestSelectedState = .prim 1) ∧
      (shallowEqual (.prim 1) (.prim 0) = true →
        (commitPhase idSelector (.prim 0) ⟨.prim 5, some ⟨"bg", "bgstack"⟩⟩
          (.prim 1)).1.latestSelectedState = .prim 0) ∧
      (commitPhase idSelector (.prim 0) ⟨.prim 5, some ⟨"bg", "bgstack"⟩⟩
        (.prim 1)).1.latestSubscriptionCallbackError = none) :=
  ⟨rfl, rfl,
    useSelector_no_missed_update idSelector (.prim 0) (.prim 1) (.prim 0)
      (.prim 1) ⟨.prim 5, some ⟨"bg", "bgstack"⟩⟩ rfl rfl⟩

/-- C4: when the render-phase selector throws while a background failure
is pending, the raised message is the base message augmented with the
correlation text and the pending failure's stack; with no pending
background failure the raised message is exactly the base message with
nothing appended; and the successful-render commit effect clears the
buffer slot. -/
theorem useSelector_error_correlation (selector : JsVal → Except JsErr JsVal)
    (s v : JsVal) (err prev : JsErr) (refs : HookRefs)
    (hthrow : selector s = .error err) :
    renderSelectedState selector (some prev) s
      = .error (correlatedErrorMsg err prev) ∧
    hasSubstr (correlatedErrorMsg err prev) "The error may be correlated" ∧
    hasSubstr (correlatedErrorMsg err prev) prev.stack ∧
    renderSelectedState selector none s = .error (selectErrorMsg err) ∧
    (commitSyncEffect v refs).latestSubscriptionCallbackError = none := by
  refine ⟨?_, (hasSubstr_correlated err prev).1,
    (hasSubstr_correlated err prev).2, ?_, rfl⟩
  · unfold renderSelectedState
    rw [hthrow]
  · unfold renderSelectedState
    rw [hthrow]

/-- Witness for C4 at a concrete throwing selector: with a pending
background failure the message carries the correlation text and its
stack; with none it is the bare base message; the commit effect clears
the slot. -/
theorem useSelector_error_correlation_witness :
    throwingSelector (.prim 0) = .error ⟨"boom", "origstack"⟩ ∧
    (renderSelectedState throwingSelector (some ⟨"bg", "bgstack"⟩) (.prim 0)
        = .error (correlatedErrorMsg ⟨"boom", "origstack"⟩ ⟨"bg", "bgstack"⟩) ∧
      hasSubstr (correlatedErrorMsg ⟨"boom", "origstack"⟩ ⟨"bg", "bgstack"⟩)
        "The error may be correlated" ∧
      hasSubstr (correlatedErrorMsg ⟨"boom", "origstack"⟩ ⟨"bg", "bgstack"⟩)
        (JsErr.stack ⟨"bg", "bgstack"⟩) ∧
      renderSelectedState throwingSelector none (.prim 0)
        = .error (selectErrorMsg ⟨"boom", "origstack"⟩) ∧
      (commitSyncEffect (.prim 7)
        ⟨.prim 5, some ⟨"bg", "bgstack"⟩⟩).latestSubscriptionCallbackError
        = none) :=
  ⟨rfl,
    useSelector_error_correlation throwingSelector (.prim 0) (.prim 7)
      ⟨"boom", "origstack"⟩ ⟨"bg", "bgstack"⟩
      ⟨.prim 5, some ⟨"bg", "bgstack"⟩⟩ rfl⟩

/-- A hypothetical caller-supplied equality override that deems every
pair of values equal; under the claim, a binding created with it would
never re-render. -/
def alwaysEqualOverride : JsVal → JsVal → Bool := fun _ _ => true

/-- C9 counterexample: `useSelector` takes only a selector — there is no
equality-function parameter — and its comparison step is hard-wired to
`shallowEqual`. With the override deeming `1` and `0` equal, the claim
says no render is triggered, yet `checkForUpdates` forces one: the
supplied function is not the one used. -/
theorem useSelector_equality_override_counterexample :
    alwaysEqualOverride (.prim 1) (.prim 0) = true ∧
    shallowEqual (.prim 1) (.prim 0) = false ∧
    (checkForUpdates idSelector (.prim 1) ⟨.prim 0, none⟩).2 = true :=
  ⟨rfl, rfl, rfl⟩

/-- C9 amended: the direct flavor accepts no equality-function override
(its signature takes only the selector); the comparison deciding whether
to trigger a render is always `shallowEqual` between the newly selected
and the previously selected state. -/
theorem useSelector_comparison_is_shallowEqual
    (selector : JsVal → Except JsErr JsVal) (s v : JsVal) (refs : HookRefs)
    (h : selector s = .ok v) :
    (checkForUpdates selector s refs).2
      = !shallowEqual v refs.latestSelectedState := by
  unfold checkForUpdates
  rw [h]
  by_cases hc : shallowEqual v refs.latestSelectedState = true
  · simp [hc]
  · have hc' : shallowEqual v refs.latestSelectedState = false := by
      simpa using hc
    simp [hc']

/-- Witness for the amended C9 at the identity selector and concrete
states. -/
theorem useSelector_comparison_is_shallowEqual_witness :
    idSelector (.prim 1) = .ok (.prim 1) ∧
    (checkForUpdates idSelector (.prim 1) ⟨.prim 0, none⟩).2
      = !shallowEqual (.prim 1) (.prim 0) :=
  ⟨rfl, useSelector_comparison_is_shallowEqual idSelector (.prim 1) (.prim 1)
    ⟨.prim 0, none⟩ rfl⟩

/-- Stage functions for the C2 counterexample: between store state `0`
and any other state, each stage returns a fresh object (new reference)
with identical fields, so the stage results are shallow-equal but not
reference-identical across the two invocations. -/
def freshFactories : SelectorFactoryOptions where
  getState := fun state _ _ =>
    match state with
    | .prim 0 => .obj 10 [("a", 1)]
    | _ => .obj 11 [("a", 1)]
  getDispatch := fun state _ _ =>
    match state with
    | .prim 0 => .obj 20 [("b", 2)]
    | _ => .obj 21 [("b", 2)]
  getOwnProps := fun state _ _ =>
    match state with
    | .prim 0 => .obj 30 [("c", 3)]
    | _ => .obj 31 [("c", 3)]
  mergeProps := fun _ _ _ => .obj 40 [("m", 4)]

/-- The closure state after the first invocation of the pure selector
over `freshFactories` at store state `0`. -/
def freshStateAfterFirst : PureSelState :=
  (pureSelector freshFactories initialPureSelState (.prim 0) .undef
    .undef).2.1

/-- C2 counterexample: on the second invocation every stage result is
shallow-equal to the previous invocation's result, yet the merge stage
IS invoked — `pureSelector` short-circuits on reference equality
(`!==`), not on shallow equality, so shallow-equal fresh references do
not suffice to skip merge. -/
theorem pure_output_stability_counterexample :
    shallowEqual freshStateAfterFirst.lastOwn
      (freshFactories.getOwnProps (.prim 1) .undef .undef) = true ∧
    shallowEqual freshStateAfterFirst.lastState
      (freshFactories.getState (.prim 1) .undef .undef) = true ∧
    shallowEqual freshStateAfterFirst.lastDispatch
      (freshFactories.getDispatch (.prim 1) .undef .undef) = true ∧
    (pureSelector freshFactories freshStateAfterFirst (.prim 1) .undef
      .undef).2.2 = true := by
  decide

/-- C2 amended: when the three stage results are reference-identical
(JS `===`) to those of the previous invocation — which is what the
individually memoized upstream stages produce for shallow-equal data —
the merge stage is not invoked and the previously returned reference is
returned unchanged. -/
theorem pure_output_stability_of_refEq (g : SelectorFactoryOptions)
    (σ : PureSelState) (s p d : JsVal)
    (hO : strictEq σ.lastOwn (g.getOwnProps s p d) = true)
    (hS : strictEq σ.lastState (g.getState s p d) = true)
    (hD : strictEq σ.lastDispatch (g.getDispatch s p d) = true) :
    (pureSelector g σ s p d).2.2 = false ∧
    (pureSelector g σ s p d).1 = σ.lastResult ∧
    (pureSelector g σ s p d).2.1.lastResult = σ.lastResult ∧
    (pureSelector g σ s p d).2.1.lastMerged = σ.lastMerged := by
  unfold pureSelector
  simp [hO, hS, hD]

/-- Constant stage functions: every invocation returns the same
references. -/
def constFactories : SelectorFactoryOptions where
  getState := fun _ _ _ => .obj 1 []
  getDispatch := fun _ _ _ => .obj 2 []
  getOwnProps := fun _ _ _ => .obj 3 []
  mergeProps := fun _ _ _ => .obj 4 []

/-- A closure state matching `constFactories`' outputs, as left by a
previous invocation. -/
def constPrevState : PureSelState :=
  ⟨.obj 3 [], .obj 1 [], .obj 2 [], .obj 4 [], .obj 4 []⟩

/-- Witness for the amended C2: with reference-identical stage results
the merge stage is skipped and the previous result reference is
returned. -/
theorem pure_output_stability_of_refEq_witness :
    strictEq constPrevState.lastOwn
      (constFactories.getOwnProps .undef .undef .undef) = true ∧
    strictEq constPrevState.lastState
      (constFactories.getState .undef .undef .undef) = true ∧
    strictEq constPrevState.lastDispatch
      (constFactories.getDispatch .undef .undef .undef) = true ∧
    ((pureSelector constFactories constPrevState .undef .undef .undef).2.2
        = false ∧
      (pureSelector constFactories constPrevState .undef .undef .undef).1
        = constPrevState.lastResult ∧
      (pureSelector constFactories constPrevState .undef .undef
        .undef).2.1.lastResult = constPrevState.lastResult ∧
      (pureSelector constFactories constPrevState .undef .undef
        .undef).2.1.lastMerged = constPrevState.lastMerged) :=
  ⟨rfl, rfl, rfl,
    pure_output_stability_of_refEq constFactories constPrevState .undef
      .undef .undef rfl rfl rfl⟩

/-- C3: the two-tier short-circuit of the pure composition. The merge
function is re-invoked exactly when at least one of the three stage
results differs by reference inequality from the previous invocation;
and when merge is invoked, the externally returned value becomes the new
merged value exactly when it is not shallow-equal to the previous merged
value, the previously returned reference being retained otherwise. The
hypothesis is the closure invariant relating `lastMerged` and
`lastResult`, which holds initially and is preserved by every invocation
(`initial_pureSelInv`, `pureSelector_preserves_inv`). -/
theorem pure_two_tier_short_circuit (g : SelectorFactoryOptions)
    (σ : PureSelState) (s p d : JsVal) (hinv : pureSelInv σ) :
    (pureSelector g σ s p d).2.2
      = (!strictEq σ.lastOwn (g.getOwnProps s p d)
         || !strictEq σ.lastState (g.getState s p d)
         || !strictEq σ.lastDispatch (g.getDispatch s p d)) ∧
    ((pureSelector g σ s p d).2.2 = true →
      (shallowEqual σ.lastMerged
          (g.mergeProps (g.getState s p d) (g.getDispatch s p d)
            (g.getOwnProps s p d)) = true →
        (pureSelector g σ s p d).1 = σ.lastResult) ∧
      (shallowEqual σ.lastMerged
          (g.mergeProps (g.getState s p d) (g.getDispatch s p d)
            (g.getOwnProps s p d)) = false →
        (pureSelector g σ s p d).1
          = g.mergeProps (g.getState s p d) (g.getDispatch s p d)
              (g.getOwnProps s p d))) := by
  unfold pureSelector
  by_cases hc : (!strictEq σ.lastOwn (g.getOwnProps s p d)
      || !strictEq σ.lastState (g.getState s p d)
      || !strictEq σ.lastDispatch (g.getDispatch s p d)) = true
  · refine ⟨by simp [hc], fun _ => ⟨?_, ?_⟩⟩
    · intro hse
      by_cases ht : truthy σ.lastMerged = true
      · simp [hc, ht, hse]
      · have ht' : truthy σ.lastMerged = false := by simpa using ht
        have heq := shallowEqual_eq_of_not_truthy ht' hse
        have hres := hinv ht'
        simp [hc, ht', ← heq, hres]
    · intro hse
      simp [hc, hse]
  · have hc' : (!strictEq σ.lastOwn (g.getOwnProps s p d)
        || !strictEq σ.lastState (g.getState s p d)
        || !strictEq σ.lastDispatch (g.getDispatch s p d)) = false := by
      simpa using hc
    simp [hc']

/-- Witness for C3: a first invocation over constant stages from the
initial closure state invokes merge (the slots start `undefined`), and
the returned value is the merged object. -/
theorem pure_two_tier_short_circuit_witness :
    pureSelInv initialPureSelState ∧
    ((pureSelector constFactories initialPureSelState .undef .undef
        .undef).2.2
      = (!strictEq initialPureSelState.lastOwn
          (constFactories.getOwnProps .undef .undef .undef)
         || !strictEq initialPureSelState.lastState
            (constFactories.getState .undef .undef .undef)
         || !strictEq initialPureSelState.lastDispatch
            (constFactories.getDispatch .undef .undef .undef)) ∧
    ((pureSelector constFactories initialPureSelState .undef .undef
        .undef).2.2 = true →
      (shallowEqual initialPureSelState.lastMerged
          (constFactories.mergeProps
            (constFactories.getState .undef .undef .undef)
            (constFactories.getDispatch .undef .undef .undef)
            (constFactories.getOwnProps .undef .undef .undef)) = true →
        (pureSelector constFactories initialPureSelState .undef .undef
          .undef).1 = initialPureSelState.lastResult) ∧
      (shallowEqual initialPureSelState.lastMerged
          (constFactories.mergeProps
            (constFactories.getState .undef .undef .undef)
            (constFactories.getDispatch .undef .undef .undef)
            (constFactories.getOwnProps .undef .undef .undef)) = false →
        (pureSelector constFactories initialPureSelState .undef .undef
          .undef).1
          = constFactories.mergeProps
              (constFactories.getState .undef .undef .undef)
              (constFactories.getDispatch .undef .undef .undef)
              (constFactories.getOwnProps .undef .undef .undef)))) :=
  ⟨fun _ => rfl,
    pure_two_tier_short_circuit constFactories initialPureSelState .undef
      .undef .undef (fun _ => rfl)⟩

/-- C5: notification order is a valid topological order of the
subscription tree — for every (strict ancestor, descendant) pair, the
ancestor's own notify callback runs strictly before the descendant's,
because each node runs its own callback before forwarding to its
children in insertion order. -/
theorem subscription_notify_topological (t : STree) (a d : Nat)
    (h : (a, d) ∈ ancPairs t) :
    ∃ l m r, notifyOrder t = l ++ a :: (m ++ d :: r) :=
  ancBeforeDescTree t a d h

/-- A three-level subscription chain for the C5 witness. -/
def chainTree : STree :=
  .node 0 (.cons (.node 1 (.cons (.node 2 .nil) .nil)) .nil)

/-- Witness for C5 on a concrete three-level tree: the root (id 0) is
notified before its grandchild (id 2). -/
theorem subscription_notify_topological_witness :
    (0, 2) ∈ ancPairs chainTree ∧
    ∃ l m r, notifyOrder chainTree = l ++ 0 :: (m ++ 2 :: r) :=
  ⟨by decide, subscription_notify_topological chainTree 0 2 (by decide)⟩

/-- C6: `trySubscribe` and `tryUnsubscribe` are idempotent — calling
either twice in a row leaves the instance (subscribed flag, stored
handle, component state) and the store's listener registry in exactly
the state a single call produces. -/
theorem trySubscribe_tryUnsubscribe_idempotent {S : Type} (should : Bool)
    (inst : ConnectInst S) (st : Store S) :
    Connect.trySubscribe should (Connect.trySubscribe should inst st).1
        (Connect.trySubscribe should inst st).2
      = Connect.trySubscribe should inst st ∧
    Connect.tryUnsubscribe (Connect.tryUnsubscribe inst st).1
        (Connect.tryUnsubscribe inst st).2
      = Connect.tryUnsubscribe inst st := by
  constructor
  · by_cases h : (should && inst.unsubscribe.isNone) = true
    · simp [Connect.trySubscribe, Connect.handleChange, h]
    · have h' : (should && inst.unsubscribe.isNone) = false := by
        cases hb : (should && inst.unsubscribe.isNone) with
        | true => exact absurd hb h
        | false => rfl
      simp [Connect.trySubscribe, h']
  · cases h : inst.unsubscribe with
    | none => simp [Connect.tryUnsubscribe, h]
    | some id => simp [Connect.tryUnsubscribe, h]

/-- C7: each of the three stages of the declarative wrapper raises a
synchronous configuration error when its result is not a plain mapping,
and the raised message names the failing stage and includes the
offending value. -/
theorem nonMapping_stage_fatal {S : Type}
    (fS : S → JsVal → JsVal) (fD : JsVal → JsVal → JsVal)
    (fM : JsVal → JsVal → JsVal → JsVal) (bS bD : Bool) (store : Store S)
    (props dispatch sp dp pp resS resD resM : JsVal)
    (heS : (if bS then fS store.state props
        else fS store.state JsVal.undef) = resS)
    (hbS : isPlainObject resS = false)
    (heD : (if bD then fD dispatch props else fD dispatch JsVal.undef) = resD)
    (hbD : isPlainObject resD = false)
    (heM : fM sp dp pp = resM)
    (hbM : isPlainObject resM = false) :
    (computeStateProps fS bS store props
        = .error (invariantObjectMsg "mapStateToProps" resS) ∧
      hasSubstr (invariantObjectMsg "mapStateToProps" resS)
        "mapStateToProps" ∧
      hasSubstr (invariantObjectMsg "mapStateToProps" resS)
        (displayVal resS)) ∧
    (computeDispatchProps fD bD dispatch props
        = .error (invariantObjectMsg "mapDispatchToProps" resD) ∧
      hasSubstr (invariantObjectMsg "mapDispatchToProps" resD)
        "mapDispatchToProps" ∧
      hasSubstr (invariantObjectMsg "mapDispatchToProps" resD)
        (displayVal resD)) ∧
    (computeNextState fM sp dp pp
        = .error (invariantObjectMsg "mergeProps" resM) ∧
      hasSubstr (invariantObjectMsg "mergeProps" resM) "mergeProps" ∧
      hasSubstr (invariantObjectMsg "mergeProps" resM) (displayVal resM)) := by
  refine ⟨⟨?_, (hasSubstr_invariantObjectMsg _ _).1,
      (hasSubstr_invariantObjectMsg _ _).2⟩,
    ⟨?_, (hasSubstr_invariantObjectMsg _ _).1,
      (hasSubstr_invariantObjectMsg _ _).2⟩,
    ⟨?_, (hasSubstr_invariantObjectMsg _ _).1,
      (hasSubstr_invariantObjectMsg _ _).2⟩⟩
  · simp only [computeStateProps]
    rw [heS]
    simp [hbS]
  · simp only [computeDispatchProps]
    rw [heD]
    simp [hbD]
  · simp only [computeNextState]
    rw [heM]
    simp [hbM]

/-- Witness for C7: stages returning the primitive `3`, the primitive
`4` and `undefined` each raise the configuration error naming the stage
and showing the value. -/
theorem nonMapping_stage_fatal_witness :
    isPlainObject (.prim 3) = false ∧
    isPlainObject (.prim 4) = false ∧
    isPlainObject .undef = false ∧
    ((computeStateProps (fun (_ : Unit) (_ : JsVal) => JsVal.prim 3) false
          ⟨(), [], 0⟩ .undef
        = .error (invariantObjectMsg "mapStateToProps" (.prim 3)) ∧
      hasSubstr (invariantObjectMsg "mapStateToProps" (.prim 3))
        "mapStateToProps" ∧
      hasSubstr (invariantObjectMsg "mapStateToProps" (.prim 3))
        (displayVal (.prim 3))) ∧
    (computeDispatchProps (fun _ _ => JsVal.prim 4) false .undef .undef
        = .error (invariantObjectMsg "mapDispatchToProps" (.prim 4)) ∧
      hasSubstr (invariantObjectMsg "mapDispatchToProps" (.prim 4))
        "mapDispatchToProps" ∧
      hasSubstr (invariantObjectMsg "mapDispatchToProps" (.prim 4))
        (displayVal (.prim 4))) ∧
    (computeNextState (fun _ _ _ => JsVal.undef) (.obj 1 []) (.obj 2 [])
        (.obj 3 [])
        = .error (invariantObjectMsg "mergeProps" .undef) ∧
      hasSubstr (invariantObjectMsg "mergeProps" .undef) "mergeProps" ∧
      hasSubstr (invariantObjectMsg "mergeProps" .undef)
        (displayVal .undef))) :=
  ⟨rfl, rfl, rfl,
    nonMapping_stage_fatal (fun (_ : Unit) (_ : JsVal) => JsVal.prim 3)
      (fun _ _ => JsVal.prim 4) (fun _ _ _ => JsVal.undef) false false
      ⟨(), [], 0⟩ .undef .undef (.obj 1 []) (.obj 2 []) (.obj 3 [])
      (.prim 3) (.prim 4) .undef rfl rfl rfl rfl rfl rfl⟩

/-- C8: after `componentWillUnmount` the unsubscribe handle is cleared,
so a subsequent store-change notification is a no-op — `handleChange`
returns without reading the state or scheduling an update — and the
instance's listener has been removed from the store's registry. -/
theorem unmount_handleChange_noop {S : Type} (inst : ConnectInst S)
    (st st' : Store S) :
    (Connect.componentWillUnmount inst st).1.unsubscribe = none ∧
    Connect.handleChange (Connect.componentWillUnmount inst st).1 st'
      = ((Connect.componentWillUnmount inst st).1, false) ∧
    (∀ id, inst.unsubscribe = some id →
      id ∉ (Connect.componentWillUnmount inst st).2.listeners) := by
  refine ⟨?_, ?_, ?_⟩
  · cases h : inst.unsubscribe with
    | none => simp [Connect.componentWillUnmount, Connect.tryUnsubscribe, h]
    | some id => simp [Connect.componentWillUnmount, Connect.tryUnsubscribe, h]
  · cases h : inst.unsubscribe with
    | none =>
      simp [Connect.componentWillUnmount, Connect.tryUnsubscribe, h,
        Connect.handleChange]
    | some id =>
      simp [Connect.componentWillUnmount, Connect.tryUnsubscribe, h,
        Connect.handleChange]
  · intro id hid
    simp only [Connect.componentWillUnmount, Connect.tryUnsubscribe, hid]
    simp [List.mem_filter]

/-- Witness for C8: a subscribed instance (handle id 0), once unmounted,
ignores a later notification and its listener is gone from the store. -/
theorem unmount_handleChange_noop_witness :
    (Connect.componentWillUnmount (⟨some 0, none⟩ : ConnectInst Unit)
        ⟨(), [0], 1⟩).1.unsubscribe = none ∧
    Connect.handleChange
        (Connect.componentWillUnmount (⟨some 0, none⟩ : ConnectInst Unit)
          ⟨(), [0], 1⟩).1 ⟨(), [], 1⟩
      = ((Connect.componentWillUnmount (⟨some 0, none⟩ : ConnectInst Unit)
          ⟨(), [0], 1⟩).1, false) ∧
    (∀ id, (⟨some 0, none⟩ : ConnectInst Unit).unsubscribe = some id →
      id ∉ (Connect.componentWillUnmount (⟨some 0, none⟩ : ConnectInst Unit)
        ⟨(), [0], 1⟩).2.listeners) :=
  unmount_handleChange_noop (⟨some 0, none⟩ : ConnectInst Unit)
    ⟨(), [0], 1⟩ ⟨(), [], 1⟩

/-- C10: with no `mapStateToProps` supplied, `shouldSubscribe` is false,
so mounting performs no store subscription at all: `componentDidMount`
leaves both the instance and the store (in particular its listener
registry) unchanged, and the instance reports unsubscribed. -/
theorem no_mapStateToProps_never_subscribes {S : Type} (st : Store S) :
    shouldSubscribe (none : Option (S → JsVal → JsVal)) = false ∧
    Connect.componentDidMount
        (shouldSubscribe (none : Option (S → JsVal → JsVal)))
        (initialConnectInst S) st
      = (initialConnectInst S, st) ∧
    Connect.isSubscribed
        (Connect.componentDidMount
          (shouldSubscribe (none : Option (S → JsVal → JsVal)))
          (initialConnectInst S) st).1
      = false := by
  refine ⟨rfl, ?_, ?_⟩ <;>
    simp [Connect.componentDidMount, Connect.trySubscribe, shouldSubscribe,
      Connect.isSubscribed, initialConnectInst]

end ReactRedux
